import Mathlib

/-!
Verification development for the TableCheck MCP server's query-translation
and response-normalization layer (`src/services/tablecheck.ts`,
`src/utils/url-builder.ts`).

The TypeScript source is embedded shallowly:
* upstream JSON records become structures whose fields are `Option`-typed
  where the code tolerates (or mishandles) a missing field;
* JavaScript truthiness (`if (x)`, `x || y`) is modelled explicitly on
  `Option String` / `Option Nat` values (`""` and `0` are falsy);
* a thrown exception becomes an `Except` error; functions that cannot throw
  keep a plain return type;
* `URLSearchParams` is modelled as an association list of key/value pairs in
  append order, serialized with the form-urlencoded encoder;
* `Math.random()` in the shop-search builder becomes an explicit `rand`
  argument, and the `fetch` calls of the orchestration become explicit
  outcome-valued arguments (a function of the request parameters, so that
  the theorems can speak about which request the code issues).
-/

namespace Tablecheck

/-- Equality of `Except` values is decidable when both components' is. -/
instance {ε α : Type} [DecidableEq ε] [DecidableEq α] : DecidableEq (Except ε α) := fun
  | .error e, .error e' => decidable_of_iff (e = e') (by simp)
  | .error _, .ok _ => isFalse (by simp)
  | .ok _, .error _ => isFalse (by simp)
  | .ok a, .ok a' => decidable_of_iff (a = a') (by simp)

/-- JS truthiness of an optional string value: `undefined`, `null` and `""`
are falsy. -/
def strTruthy : Option String → Bool
  | some s => s ≠ ""
  | none => false

/-- JS truthiness of an optional number value: `undefined`, `null` and `0`
are falsy. -/
def natTruthy : Option Nat → Bool
  | some n => n ≠ 0
  | none => false

/-- JS `a || b` on string-or-missing values (`""` falls through to `b`). -/
def jsOr (a b : Option String) : Option String :=
  if strTruthy a then a else b

/-- JS `v || d` with a string default (`v` missing or `""` yields `d`). -/
def strOrDefault (v : Option String) (d : String) : String :=
  match v with
  | some s => if s = "" then d else s
  | none => d

/-- JS `v || d` with a numeric default (`v` missing or `0` yields `d`). -/
def natOrDefault (v : Option Nat) (d : Nat) : Nat :=
  match v with
  | some n => if n = 0 then d else n
  | none => d

/-- Does the character list start with the given pattern? -/
def headMatch : List Char → List Char → Bool
  | [], _ => true
  | _ :: _, [] => false
  | p :: ps, c :: cs => p = c && headMatch ps cs

/-- Is the pattern a contiguous run somewhere in the character list? -/
def hasSub (pat : List Char) : List Char → Bool
  | [] => pat.isEmpty
  | c :: cs => headMatch pat (c :: cs) || hasSub pat cs

/-- JS `s.includes(pat)`: substring containment. -/
def jsIncludes (s pat : String) : Bool :=
  hasSub pat.data s.data

/-- JS `s.toLowerCase()` (ASCII, which covers every value the code compares). -/
def strLower (s : String) : String :=
  ⟨s.data.map Char.toLower⟩

/-- JS `s.replace(/ /g, '-')`: every space becomes a hyphen. -/
def spaceToDash (s : String) : String :=
  ⟨s.data.map fun c => if c = ' ' then '-' else c⟩

/-! ## URL builders (`src/utils/url-builder.ts`)

`URLSearchParams` is an ordered multimap; we model the sequence of
`append` calls as an association list. Each `if (params.x) append(...)`
guard is one of the `opt*Param` helpers below (JS truthiness included). -/

/-- `if (params.k) queryParams.append(key, params.k.toString())` for a numeric field. -/
def optNatParam (key : String) (v : Option Nat) : List (String × String) :=
  match v with
  | some n => if n = 0 then [] else [(key, toString n)]
  | none => []

/-- `if (params.k) queryParams.append(key, params.k)` for a string field. -/
def optStrParam (key : String) (v : Option String) : List (String × String) :=
  match v with
  | some s => if s = "" then [] else [(key, s)]
  | none => []

/-- `if (params.time) { append('time', ...); append('availability_mode', 'same_meal_time') }`. -/
def timeParamPair (v : Option String) : List (String × String) :=
  match v with
  | some s => if s = "" then [] else [("time", s), ("availability_mode", "same_meal_time")]
  | none => []

/-- A latitude/longitude pair supplied by the caller (`params.location`). -/
structure GeoPoint where
  lat : Int
  lng : Int
deriving DecidableEq

/-- `if (params.location) { append('geo_latitude', ...); append('geo_longitude', ...) }`. -/
def locationParam : Option GeoPoint → List (String × String)
  | some g => [("geo_latitude", toString g.lat), ("geo_longitude", toString g.lng)]
  | none => []

/-- `if (params.cuisines && params.cuisines.length > 0) forEach append('cuisines[]', c)`. -/
def cuisinesParam : Option (List String) → List (String × String)
  | some cs => if cs.length > 0 then cs.map (fun c => ("cuisines[]", c)) else []
  | none => []

/-- The abstract search request (`SearchParams` in `src/types/index.ts`);
every field is optional there. -/
structure SearchParams where
  query : Option String := none
  location : Option GeoPoint := none
  cuisines : Option (List String) := none
  date_min : Option String := none
  date_max : Option String := none
  num_people : Option Nat := none
  time : Option String := none
  budget_max : Option Nat := none
  budget_min : Option Nat := none
  sort_by : Option String := none
  sort_order : Option String := none
  geo_distance : Option String := none
  locale : Option String := none
deriving DecidableEq

/-- The four parameters `buildReservationUrl` always appends first
(`CONFIG.DEFAULT_AVAILABILITY_DAYS = 7`, `'date'`, `CONFIG.DEFAULT_SERVICE_MODE
= 'dining'`, `CONFIG.DEFAULT_VENUE_TYPE = 'all'`). -/
def reservationFixedParams : List (String × String) :=
  [("availability_days_limit", "7"), ("availability_format", "date"),
   ("service_mode", "dining"), ("venue_type", "all")]

/-- The query parameters of `buildReservationUrl`, in append order. -/
def buildReservationParams (params : SearchParams) : List (String × String) :=
  reservationFixedParams
    ++ optNatParam "num_people" params.num_people
    ++ optStrParam "date_min" params.date_min
    ++ optStrParam "date_max" params.date_max
    ++ timeParamPair params.time
    ++ optNatParam "budget_dinner_avg_min" params.budget_min
    ++ optNatParam "budget_dinner_avg_max" params.budget_max
    ++ locationParam params.location
    ++ optStrParam "geo_distance" params.geo_distance
    ++ optStrParam "sort_by" params.sort_by
    ++ optStrParam "sort_order" params.sort_order

/-- One hex digit (uppercase), as `URLSearchParams` percent-encodes. -/
def hexDigit (n : Nat) : Char :=
  if n < 10 then Char.ofNat (48 + n) else Char.ofNat (55 + n)

/-- One character of form-urlencoded output: alphanumerics and `*-._` pass,
space becomes `+`, everything else is percent-encoded. -/
def formEncodeChar (c : Char) : String :=
  if c = ' ' then "+"
  else if c.isAlphanum || c = '*' || c = '-' || c = '.' || c = '_' then String.singleton c
  else "%" ++ String.singleton (hexDigit (c.toNat / 16 % 16))
    ++ String.singleton (hexDigit (c.toNat % 16))

/-- Form-urlencode a string (the values here are ASCII). -/
def formEncode (s : String) : String :=
  String.join (s.data.map formEncodeChar)

/-- `URLSearchParams.toString()`: `k=v` pairs joined by `&`, both sides encoded. -/
def serializeParams (ps : List (String × String)) : String :=
  String.intercalate "&" (ps.map fun kv => formEncode kv.1 ++ "=" ++ formEncode kv.2)

/-- `buildReservationUrl(shopId, params, locale)`:
`https://www.tablecheck.com/{locale}/{shopId}?{query}`. -/
def buildReservationUrl (shopId : String) (params : SearchParams) (locale : String) : String :=
  "https://www.tablecheck.com/" ++ locale ++ "/" ++ shopId ++ "?"
    ++ serializeParams (buildReservationParams params)

/-- The parameters `buildShopSearchUrl` always appends first; `rand` stands for
`Math.random()`'s draw, so `randomize_geo` carries `Math.floor(rand * 10000)`
modelled as `rand % 10000`. -/
def shopSearchFixedParams (rand : Nat) : List (String × String) :=
  [("shop_universe_id", "57e0b91744aea12988000001"),
   ("availability_days_limit", "7"), ("availability_format", "date"),
   ("service_mode", "dining"), ("venue_type", "all"),
   ("per_page", "50"), ("include_ids", "true"),
   ("randomize_geo", toString (rand % 10000))]

/-- The query parameters of `buildShopSearchUrl`, in append order. -/
def buildShopSearchParams (params : SearchParams) (rand : Nat) : List (String × String) :=
  shopSearchFixedParams rand
    ++ locationParam params.location
    ++ optStrParam "geo_distance" params.geo_distance
    ++ optStrParam "date_min" params.date_min
    ++ optStrParam "date_max" params.date_max
    ++ optNatParam "num_people" params.num_people
    ++ timeParamPair params.time
    ++ optNatParam "budget_dinner_avg_min" params.budget_min
    ++ optNatParam "budget_dinner_avg_max" params.budget_max
    ++ optStrParam "sort_by" params.sort_by
    ++ optStrParam "sort_order" params.sort_order
    ++ cuisinesParam params.cuisines

/-- `buildShopSearchUrl(params)` as a string. -/
def buildShopSearchUrl (params : SearchParams) (rand : Nat) : String :=
  "https://production.tablecheck.com/v2/shop_search?"
    ++ serializeParams (buildShopSearchParams params rand)

/-- The query parameters of `buildAutocompleteUrl`, in append order
(`locale` defaults through `params.locale || CONFIG.DEFAULT_LOCALE`). -/
def buildAutocompleteParams (params : SearchParams) : List (String × String) :=
  [("shop_universe_id", "57e0b91744aea12988000001"),
   ("locale", strOrDefault params.locale "en")]
    ++ optStrParam "text" params.query

/-! ## Error model (`TableCheckError`, `handleApiError`)

`TableCheckError` carries `message`, an optional `statusCode` and an optional
`response` payload. Every `throw new TableCheckError(...)` in the service
passes two arguments, so `response` is always `none` for errors the service
itself creates. A JS `TypeError` (a property access on `undefined`, or a
rejected `fetch`) is a distinct thrown value with no `response` field. -/

/-- The `error.response` payload `handleApiError` inspects (`.status`). -/
structure UpstreamResponsePayload where
  status : Nat
deriving DecidableEq

/-- The service's tagged error class. -/
structure TableCheckError where
  message : String
  statusCode : Option Nat := none
  response : Option UpstreamResponsePayload := none
deriving DecidableEq

/-- A value thrown inside the service: either a `TableCheckError` or a plain
JS `TypeError` (property access on `undefined`, network-failed `fetch`). -/
inductive Thrown where
  | tc (e : TableCheckError)
  | typeError
deriving DecidableEq

/-- `error.response?.status` of a caught value. -/
def caughtResponseStatus : Thrown → Option Nat
  | .tc e => e.response.map UpstreamResponsePayload.status
  | .typeError => none

/-- `handleApiError(error)`: classifies on `error.response?.status` and throws
the corresponding `TableCheckError` (the final branch uses
`error.response?.status || 500`). -/
def handleApiError (e : Thrown) : TableCheckError :=
  if caughtResponseStatus e = some 404 then
    { message := "Restaurant not found", statusCode := some 404 }
  else if caughtResponseStatus e = some 429 then
    { message := "Rate limit exceeded", statusCode := some 429 }
  else if caughtResponseStatus e = some 400 then
    { message := "Invalid request parameters", statusCode := some 400 }
  else
    { message := "API request failed", statusCode := some (natOrDefault (caughtResponseStatus e) 500) }

/-! ## Upstream response shapes and the unified restaurant record -/

/-- The nested `geocode` object (`lat` / `lon`, either may be absent). -/
structure Geocode where
  lat : Option Int := none
  lon : Option Int := none
deriving DecidableEq

/-- The nested `payload` of an autocomplete shop, carrying `shop_slug`. -/
structure AutocompletePayload where
  shop_slug : Option String := none
deriving DecidableEq

/-- One raw record of the autocomplete (text-search) response shape. -/
structure AutocompleteShop where
  payload : Option AutocompletePayload := none
  text : Option String := none
  cuisines : Option (List String) := none
  geocode : Option Geocode := none
  currency : Option String := none
  budget_avg : Option Nat := none
  budget_lunch_min : Option Nat := none
  budget_lunch_max : Option Nat := none
  budget_dinner_min : Option Nat := none
  budget_dinner_max : Option Nat := none
deriving DecidableEq

/-- The autocomplete response (`shops` may be absent entirely). -/
structure AutocompleteResponse where
  shops : Option (List AutocompleteShop) := none
deriving DecidableEq

/-- One raw record of the shop-search (filtered-search) response shape;
`name` is list-valued upstream. -/
structure ShopSearchShop where
  id : Option String := none
  slug : Option String := none
  name : Option (List String) := none
  cuisines : Option (List String) := none
  geocode : Option Geocode := none
  budget_avg : Option Nat := none
  currency : Option String := none
  budget_lunch_min : Option Nat := none
  budget_lunch_max : Option Nat := none
  budget_dinner_min : Option Nat := none
  budget_dinner_max : Option Nat := none
  availability : Option (List String) := none
  search_image : Option String := none
deriving DecidableEq

/-- The shop-search response (`shops` may be absent entirely). -/
structure ShopSearchResponse where
  shops : Option (List ShopSearchShop) := none
deriving DecidableEq

/-- A min/max price range of the unified record. -/
structure PriceRange where
  min : Option Nat
  max : Option Nat
  currency : String
deriving DecidableEq

/-- The `location` of the unified record (`lat` / `lng`, null when absent). -/
structure ResultLocation where
  lat : Option Int
  lng : Option Int
deriving DecidableEq

/-- The unified `RestaurantResult` record. Fields a code path does not assign
are `none` (JS leaves them `undefined`). -/
structure RestaurantResult where
  id : Option String
  name : String
  slug : Option String
  cuisine : List String
  location : ResultLocation
  currency : String
  price_avg : Option Nat
  lunch_price_range : PriceRange
  dinner_price_range : PriceRange
  available_dates : Option (List String)
  availability_summary : Option String
  image_url : Option String
  reservation_url : String
deriving DecidableEq

/-- JS string interpolation of the slug into the reservation URL path: a
missing value (null/undefined, both modelled as `none`) is rendered as the
literal text of the missing value; we collapse both spellings to "null". -/
def renderSlug : Option String → String
  | some s => s
  | none => "null"

/-- One record of `parseAutocompleteResponse`'s loop body. The slug is
`shop.payload ? shop.payload.shop_slug : null`; no field read can throw. -/
def parseAutocompleteShop (shop : AutocompleteShop) (params : SearchParams) : RestaurantResult :=
  let slug : Option String :=
    match shop.payload with
    | some p => p.shop_slug
    | none => none
  { id := slug
    name := strOrDefault shop.text "Unknown Restaurant"
    slug := slug
    cuisine := shop.cuisines.getD []
    location :=
      { lat := match shop.geocode with | some g => g.lat | none => none
        lng := match shop.geocode with | some g => g.lon | none => none }
    currency := strOrDefault shop.currency "JPY"
    price_avg := shop.budget_avg
    lunch_price_range :=
      { min := shop.budget_lunch_min, max := shop.budget_lunch_max
        currency := strOrDefault shop.currency "JPY" }
    dinner_price_range :=
      { min := shop.budget_dinner_min, max := shop.budget_dinner_max
        currency := strOrDefault shop.currency "JPY" }
    available_dates := none
    availability_summary := some ""
    image_url := some ""
    reservation_url := buildReservationUrl (renderSlug slug) params (params.locale.getD "en") }

/-- `parseAutocompleteResponse(response, params)`: guarded by
`response.shops && response.shops.length > 0`; never throws. -/
def parseAutocompleteResponse (response : AutocompleteResponse) (params : SearchParams) :
    List RestaurantResult :=
  match response.shops with
  | some shops => if shops.length > 0 then shops.map (parseAutocompleteShop · params) else []
  | none => []

/-- One record of `parseShopSearchResponse`'s loop body. `shop.name[0]` throws
a `TypeError` when `name` is absent; `id` is `shop.id || shop.slug` and `slug`
is `shop.slug || shop.id`; the lunch range's `max` reads `budget_lunch_min`. -/
def parseShopSearchShop (shop : ShopSearchShop) (params : SearchParams) :
    Except Thrown RestaurantResult :=
  match shop.name with
  | none => .error .typeError
  | some nameList =>
    .ok
      { id := jsOr shop.id shop.slug
        name := strOrDefault nameList.head? "Unknown Restaurant"
        slug := jsOr shop.slug shop.id
        cuisine := shop.cuisines.getD []
        location :=
          { lat := match shop.geocode with | some g => g.lat | none => none
            lng := match shop.geocode with | some g => g.lon | none => none }
        currency := strOrDefault shop.currency "JPY"
        price_avg := shop.budget_avg
        lunch_price_range :=
          { min := shop.budget_lunch_min, max := shop.budget_lunch_min
            currency := strOrDefault shop.currency "JPY" }
        dinner_price_range :=
          { min := shop.budget_dinner_min, max := shop.budget_dinner_max
            currency := strOrDefault shop.currency "JPY" }
        available_dates := shop.availability
        availability_summary := none
        image_url := shop.search_image
        reservation_url :=
          buildReservationUrl (renderSlug (jsOr shop.slug shop.id)) params (params.locale.getD "en") }

/-- `forEach` with exception propagation: the first record that throws aborts
the whole parse and discards the partial results. -/
def mapMExcept (f : α → Except ε β) : List α → Except ε (List β)
  | [] => .ok []
  | a :: as =>
    match f a with
    | .error e => .error e
    | .ok b =>
      match mapMExcept f as with
      | .error e => .error e
      | .ok bs => .ok (b :: bs)

/-- `parseShopSearchResponse(response, params)`. -/
def parseShopSearchResponse (response : ShopSearchResponse) (params : SearchParams) :
    Except Thrown (List RestaurantResult) :=
  match response.shops with
  | some shops =>
    if shops.length > 0 then mapMExcept (parseShopSearchShop · params) shops else .ok []
  | none => .ok []

/-! ## Availability normalizer -/

/-- The nested `availability_calendar` container; `data` maps each date to a
time → boolean map. JS `Object.entries` iterates in insertion order for these
string keys, so both levels are association lists. -/
structure AvailabilityCalendar where
  data : Option (List (String × List (String × Bool))) := none
deriving DecidableEq

/-- The availability response (`availability_calendar` may be absent). -/
structure AvailabilityResponse where
  availability_calendar : Option AvailabilityCalendar := none
deriving DecidableEq

/-- One flattened availability slot. -/
structure AvailabilitySlot where
  date : String
  time : String
  available : Bool
  party_size : Nat
deriving DecidableEq

/-- `parseAvailabilityResponse(response, party_size)`: guarded by
`response.availability_calendar && response.availability_calendar.data`,
then a nested `Object.entries` walk. -/
def parseAvailabilityResponse (response : AvailabilityResponse) (party_size : Nat) :
    List AvailabilitySlot :=
  match response.availability_calendar with
  | some cal =>
    match cal.data with
    | some entries =>
      entries.flatMap fun dateEntry =>
        dateEntry.2.map fun timeEntry =>
          { date := dateEntry.1, time := timeEntry.1, available := timeEntry.2
            party_size := party_size }
    | none => []
  | none => []

/-! ## Cuisine catalog -/

/-- One element of a cuisine's `text_translations` list. -/
structure CuisineTranslation where
  locale : String
  translation : String
deriving DecidableEq

/-- One raw cuisine entry of the `/cuisines` response: a canonical `field`
token and its translation list. -/
structure RawCuisine where
  field : String
  text_translations : List CuisineTranslation
deriving DecidableEq

/-- The `/cuisines` response (`cuisines` may be absent or not an array). -/
structure CuisinesResponse where
  cuisines : Option (List RawCuisine) := none
deriving DecidableEq

/-- The normalized cuisine record pushed by `parseCuisinesResponse`. -/
structure Cuisine where
  id : String
  name : String
  name_en : String
  name_ja : String
  locale : String
deriving DecidableEq

/-- One entry of `parseCuisinesResponse`'s loop: three `find` calls over
`text_translations`; reading `.translation` off a failed `find` (which
returns `undefined`) throws a `TypeError`. -/
def parseCuisineEntry (locale : String) (c : RawCuisine) : Except Thrown Cuisine :=
  match c.text_translations.find? (fun t => t.locale == locale),
        c.text_translations.find? (fun t => t.locale == "en"),
        c.text_translations.find? (fun t => t.locale == "ja") with
  | some forLocale, some en, some ja =>
    .ok { id := c.field, name := forLocale.translation, name_en := en.translation,
          name_ja := ja.translation, locale := locale }
  | _, _, _ => .error .typeError

/-- `parseCuisinesResponse(response, locale)`. -/
def parseCuisinesResponse (response : CuisinesResponse) (locale : String) :
    Except Thrown (List Cuisine) :=
  match response.cuisines with
  | some cs => mapMExcept (parseCuisineEntry locale) cs
  | none => .ok []

/-- The predicate of `searchCuisines`' filter: the id must contain the
dash-joined raw query, or one of the three (lowercased) names must contain
the lowercased query. -/
def cuisineMatchesQuery (queryDash queryLower : String) (c : Cuisine) : Bool :=
  jsIncludes c.id queryDash || jsIncludes (strLower c.name) queryLower
    || jsIncludes (strLower c.name_en) queryLower
    || jsIncludes (strLower c.name_ja) queryLower

/-- The pure tail of `searchCuisines(query, locale)`: `queryLower` is the
lowercased query, `queryDash` is `query.replace(/ /g, '-')` on the raw
(not lowercased) query; returns the matching canonical ids. -/
def searchCuisinesFilter (cuisines : List Cuisine) (query : String) : List String :=
  let queryLower := strLower query
  let queryDash := spaceToDash query
  (cuisines.filter (cuisineMatchesQuery queryDash queryLower)).map Cuisine.id

/-! ## Orchestration (`TableCheckService`)

A `fetch` call is modelled by its outcome: the decoded body on a 2xx
response, the HTTP status on a non-2xx response (the code then throws
`new TableCheckError('HTTP {status}: {statusText}', status)` — two
arguments, so `response` stays unset), or a network failure (a rejected
promise, i.e. a thrown `TypeError`). -/

/-- Outcome of one upstream `fetch`. -/
inductive FetchOutcome (α : Type) where
  | success (body : α)
  | httpError (status : Nat) (statusText : String)
  | networkFailure

/-- The shared `fetch` / `response.ok` check of every service method. -/
def fetchStep {α : Type} : FetchOutcome α → Except Thrown α
  | .success b => .ok b
  | .httpError s txt =>
    .error (.tc { message := "HTTP " ++ toString s ++ ": " ++ txt, statusCode := some s })
  | .networkFailure => .error .typeError

/-- `getCuisines(locale)`: fetch, parse, and a `catch` that rethrows through
`handleApiError` (so the thrown value is a `TableCheckError`). -/
def getCuisinesRun (fetchC : FetchOutcome CuisinesResponse) (locale : String) :
    Except Thrown (List Cuisine) :=
  match (fetchStep fetchC).bind (fun d => parseCuisinesResponse d locale) with
  | .ok v => .ok v
  | .error e => .error (.tc (handleApiError e))

/-- `searchCuisines(query, locale)`: `getCuisines` then the pure filter. -/
def searchCuisinesRun (fetchC : FetchOutcome CuisinesResponse) (query : String)
    (locale : String) : Except Thrown (List String) :=
  (getCuisinesRun fetchC locale).map (fun cs => searchCuisinesFilter cs query)

/-- `textSearch(params)`: autocomplete fetch (the request's parameters are
passed to the fetch model) and the autocomplete normalizer. -/
def textSearchRun (fetchA : List (String × String) → FetchOutcome AutocompleteResponse)
    (params : SearchParams) : Except Thrown (List RestaurantResult) :=
  (fetchStep (fetchA (buildAutocompleteParams params))).map
    (fun d => parseAutocompleteResponse d params)

/-- `parameterSearch(params)`: shop-search fetch and the shop-search
normalizer (which can throw). -/
def parameterSearchRun (fetchS : List (String × String) → FetchOutcome ShopSearchResponse)
    (params : SearchParams) (rand : Nat) : Except Thrown (List RestaurantResult) :=
  (fetchStep (fetchS (buildShopSearchParams params rand))).bind
    (fun d => parseShopSearchResponse d params)

/-- `searchRestaurants(params)`: when `params.query` is truthy, resolve
cuisine ids from the query, assign them into `params.cuisines`, await
`parameterSearch` then `textSearch` (in that order) and return
`[...textSearch, ...paramSearch]`; otherwise a single `parameterSearch`.
The surrounding `catch` rethrows every error through `handleApiError`. -/
def searchRestaurantsRun (fetchC : FetchOutcome CuisinesResponse)
    (fetchA : List (String × String) → FetchOutcome AutocompleteResponse)
    (fetchS : List (String × String) → FetchOutcome ShopSearchResponse)
    (params : SearchParams) (rand : Nat) : Except TableCheckError (List RestaurantResult) :=
  let body : Except Thrown (List RestaurantResult) :=
    match params.query with
    | some q =>
      if q = "" then parameterSearchRun fetchS params rand
      else
        (searchCuisinesRun fetchC q (params.locale.getD "en")).bind fun cuisineIds =>
          let params2 := { params with cuisines := some cuisineIds }
          (parameterSearchRun fetchS params2 rand).bind fun paramSearch =>
            (textSearchRun fetchA params2).map fun textSearch =>
              textSearch ++ paramSearch
    | none => parameterSearchRun fetchS params rand
  match body with
  | .ok v => .ok v
  | .error e => .error (handleApiError e)

/-! ## Helper lemmas -/

/-- A successful `mapMExcept` preserves the list length. -/
theorem mapMExcept_ok_length {α β ε : Type} (f : α → Except ε β) :
    ∀ (l : List α) (l' : List β), mapMExcept f l = .ok l' → l'.length = l.length := by
  intro l
  induction l with
  | nil =>
    intro l' h
    simp only [mapMExcept, Except.ok.injEq] at h
    subst h
    rfl
  | cons a as ih =>
    intro l' h
    simp only [mapMExcept] at h
    cases hf : f a with
    | error e => rw [hf] at h; exact absurd h (by simp)
    | ok b =>
      rw [hf] at h
      cases hm : mapMExcept f as with
      | error e => rw [hm] at h; exact absurd h (by simp)
      | ok bs =>
        rw [hm] at h
        simp only [Except.ok.injEq] at h
        subst h
        simp [ih bs hm]

/-- When `f` can only fail with the one error `e0`, a single failing member
makes the whole `mapMExcept` fail with `e0`. -/
theorem mapMExcept_error_of_mem {α β ε : Type} {f : α → Except ε β} {e0 : ε}
    (honly : ∀ a e', f a = .error e' → e' = e0) :
    ∀ {l : List α} {a : α}, a ∈ l → f a = .error e0 → mapMExcept f l = .error e0 := by
  intro l
  induction l with
  | nil => intro a h; exact absurd h (by simp)
  | cons b bs ih =>
    intro a hmem hfa
    rcases List.mem_cons.mp hmem with rfl | hmem'
    · simp [mapMExcept, hfa]
    · cases hf : f b with
      | error e' =>
        have he := honly b e' hf
        subst he
        simp [mapMExcept, hf]
      | ok bb => simp [mapMExcept, hf, ih hmem' hfa]

/-- `parseCuisineEntry` fails only with a `TypeError`. -/
theorem parseCuisineEntry_error_eq (locale : String) (c : RawCuisine) (e : Thrown)
    (h : parseCuisineEntry locale c = .error e) : e = .typeError := by
  unfold parseCuisineEntry at h
  cases hA : c.text_translations.find? (fun t => t.locale == locale) <;>
    cases hB : c.text_translations.find? (fun t => t.locale == "en") <;>
      cases hC : c.text_translations.find? (fun t => t.locale == "ja") <;>
        rw [hA, hB, hC] at h <;> simp_all

/-! ## C1 — slug join key: fallback, and what happens with neither slug nor id -/

/-- A shop-search record with neither `slug` nor `id` (its `name` is present,
so the normalizer does not throw for an unrelated reason). -/
def noKeyShop : ShopSearchShop := { name := some ["Nameless"] }

/-- A shop-search response holding only `noKeyShop`. -/
def noKeyResponse : ShopSearchResponse := { shops := some [noKeyShop] }

/-- C1 counterexample: normalizing a shop-search record with neither `slug`
nor `id` does NOT drop the record — the output holds exactly one record and
its slug is null, contradicting "the record is dropped" and "no record with
an empty or null slug is ever emitted". -/
theorem c1_slug_counterexample :
    (parseShopSearchResponse noKeyResponse {}).map (List.map RestaurantResult.slug)
      = .ok [none] := by decide

/-- C1 as amended: the shop-search normalizer takes the slug as
`shop.slug || shop.id` (so the id fallback exists there), but no record is
ever dropped: a successful parse emits one record per raw record, and the
autocomplete normalizer takes the slug solely from `payload.shop_slug`
(null when `payload` is absent, with no id fallback) and also emits every
record. -/
theorem c1_slug_amended :
    (∀ (shop : ShopSearchShop) (params : SearchParams) (r : RestaurantResult),
        parseShopSearchShop shop params = .ok r → r.slug = jsOr shop.slug shop.id) ∧
    (∀ (response : ShopSearchResponse) (params : SearchParams) (rs : List RestaurantResult),
        parseShopSearchResponse response params = .ok rs →
          rs.length = (response.shops.getD []).length) ∧
    (∀ (shop : AutocompleteShop) (params : SearchParams),
        (parseAutocompleteShop shop params).slug
          = (match shop.payload with | some p => p.shop_slug | none => none)) ∧
    (∀ (response : AutocompleteResponse) (params : SearchParams),
        (parseAutocompleteResponse response params).length = (response.shops.getD []).length) := by
  refine ⟨?_, ?_, ?_, ?_⟩
  · intro shop params r h
    cases hn : shop.name with
    | none => rw [parseShopSearchShop, hn] at h; exact absurd h (by simp)
    | some l =>
      rw [parseShopSearchShop, hn] at h
      simp only [Except.ok.injEq] at h
      subst h
      rfl
  · intro response params rs h
    obtain ⟨shopsOpt⟩ := response
    cases shopsOpt with
    | none =>
      simp only [parseShopSearchResponse, Except.ok.injEq] at h
      subst h
      rfl
    | some shops =>
      simp only [parseShopSearchResponse] at h
      by_cases hl : shops.length > 0
      · rw [if_pos hl] at h
        simpa using mapMExcept_ok_length _ shops rs h
      · rw [if_neg hl] at h
        simp only [Except.ok.injEq] at h
        subst h
        simp only [Option.getD_some, List.length_nil]
        omega
  · intro shop params
    rfl
  · intro response params
    obtain ⟨shopsOpt⟩ := response
    cases shopsOpt with
    | none => rfl
    | some shops =>
      simp only [parseAutocompleteResponse]
      by_cases hl : shops.length > 0
      · rw [if_pos hl]
        simp
      · rw [if_neg hl]
        simp only [Option.getD_some, List.length_nil]
        omega

/-! ## C2 — error taxonomy: the classifier never sees the status it branches on -/

/-- C2: on an upstream 404 the search operation surfaces
`TableCheckError("API request failed", 500)`, not the claimed
`("Restaurant not found", 404)`. The cause: every error this codebase throws
carries the status in `statusCode` and leaves `response` unset, while
`handleApiError` branches on `error.response?.status`; the second conjunct
shows the classifier missing exactly the error the fetch path throws, and the
third shows the 404 branch firing only for a `response`-shaped error that
never occurs in this codebase. -/
theorem c2_error_classification_bug :
    searchRestaurantsRun (.success {}) (fun _ => .success {})
        (fun _ => .httpError 404 "Not Found") {} 0
      = .error { message := "API request failed", statusCode := some 500 } ∧
    handleApiError (.tc { message := "HTTP 404: Not Found", statusCode := some 404 })
      = { message := "API request failed", statusCode := some 500 } ∧
    handleApiError (.tc { message := "x", response := some ⟨404⟩ })
      = { message := "Restaurant not found", statusCode := some 404 } := by
  refine ⟨by decide, by decide, by decide⟩

/-! ## C3 — a cuisine entry lacking the requested locale -/

/-- A cuisine entry carrying only an English translation. -/
def curryEntry : RawCuisine :=
  { field := "curry", text_translations := [{ locale := "en", translation := "Curry" }] }

/-- A cuisine catalog whose single entry is `curryEntry`. -/
def missingLocaleCatalog : CuisinesResponse :=
  { cuisines := some [curryEntry] }

/-- C3 counterexample: requesting locale "ja" against an entry that only has
an "en" translation makes the whole parse throw a `TypeError` (reading
`.translation` off `undefined`) — the call fails; the entry is not skipped
(skipping would yield `.ok []`). -/
theorem c3_locale_counterexample :
    parseCuisinesResponse missingLocaleCatalog "ja" = .error .typeError := by decide

/-- C3 as amended: whenever any entry's translation set lacks the requested
locale, the whole cuisine-list normalization throws a `TypeError` (failing
the call), rather than skipping that entry or falling back to English. -/
theorem c3_locale_amended (response : CuisinesResponse) (locale : String)
    (cs : List RawCuisine) (c : RawCuisine)
    (hcs : response.cuisines = some cs) (hmem : c ∈ cs)
    (hfind : c.text_translations.find? (fun t => t.locale == locale) = none) :
    parseCuisinesResponse response locale = .error .typeError := by
  have hc : parseCuisineEntry locale c = .error .typeError := by
    unfold parseCuisineEntry
    rw [hfind]
  rw [parseCuisinesResponse, hcs]
  exact mapMExcept_error_of_mem (parseCuisineEntry_error_eq locale) hmem hc

/-- Witness for `c3_locale_amended` at the concrete catalog above. -/
theorem c3_locale_amended_witness :
    parseCuisinesResponse missingLocaleCatalog "ja" = .error .typeError :=
  c3_locale_amended missingLocaleCatalog "ja" [curryEntry] curryEntry
    (by decide) (by decide) (by decide)

/-! ## C4 — cuisine matching -/

/-- A fixture catalog: one entry whose English name contains "curry"
(and whose id is the hyphenated token), one unrelated entry. -/
def matchCatalog : List Cuisine :=
  [{ id := "indian-curry", name := "Indian Curry", name_en := "Indian Curry",
     name_ja := "kare", locale := "en" },
   { id := "sushi", name := "Sushi", name_en := "Sushi", name_ja := "sushi", locale := "en" }]

/-- An entry matchable only through its Japanese name. -/
def jaOnlyCatalog : List Cuisine :=
  [{ id := "sushi", name := "Sushi", name_en := "Sushi", name_ja := "sushiya", locale := "en" }]

/-- An entry matchable only through its hyphenated id. -/
def capsCatalog : List Cuisine :=
  [{ id := "indian-curry", name := "X", name_en := "X", name_ja := "X", locale := "en" }]

/-- Modelled from the claim's words, for comparison with the source's
`searchCuisines`: lowercase the query, dash-join the lowercased query for the
id check, and consult only the requested locale's display name. -/
def claimCuisineMatch (cuisines : List Cuisine) (query : String) : List String :=
  let queryLower := strLower query
  let queryDash := spaceToDash queryLower
  (cuisines.filter fun c =>
    jsIncludes c.id queryDash || jsIncludes (strLower c.name) queryLower).map Cuisine.id

/-- C4 counterexample, both directions. Query "ya": the code returns "sushi"
because the Japanese name "sushiya" contains it, while the claim's rule
(id or requested-locale name only) returns nothing. Query "Indian Curry":
the claim's rule dash-joins the lowercased query and matches the id
"indian-curry", while the code dash-joins the raw query ("Indian-Curry",
case preserved) and finds no match. -/
theorem c4_match_counterexample :
    (searchCuisinesFilter jaOnlyCatalog "ya" = ["sushi"] ∧
      claimCuisineMatch jaOnlyCatalog "ya" = []) ∧
    (searchCuisinesFilter capsCatalog "Indian Curry" = [] ∧
      claimCuisineMatch capsCatalog "Indian Curry" = ["indian-curry"]) := by
  refine ⟨⟨by decide, by decide⟩, ⟨by decide, by decide⟩⟩

/-- C4 as amended: `match` returns exactly the ids of entries whose id
contains the dash-joined raw query (spaces to hyphens, case preserved) or
whose locale, English or Japanese display name (lowercased) contains the
lowercased query; on the fixture catalog, `match("indian curry", "en")`
returns exactly the canonical id whose English name contains "curry", and a
query matching nothing returns the empty list (not an error). -/
theorem c4_match_amended :
    (∀ (cuisines : List Cuisine) (query : String) (i : String),
        i ∈ searchCuisinesFilter cuisines query ↔
          ∃ c, c ∈ cuisines ∧ c.id = i ∧
            cuisineMatchesQuery (spaceToDash query) (strLower query) c = true) ∧
    searchCuisinesFilter matchCatalog "indian curry" = ["indian-curry"] ∧
    (∀ c, c ∈ matchCatalog → c.id = "indian-curry" →
      jsIncludes (strLower c.name_en) "curry" = true) ∧
    searchCuisinesFilter matchCatalog "unmatched-token" = [] := by
  refine ⟨?_, by decide, by decide, by decide⟩
  intro cuisines query i
  simp only [searchCuisinesFilter, List.mem_map, List.mem_filter]
  constructor
  · rintro ⟨c, ⟨hmem, hmatch⟩, hid⟩
    exact ⟨c, hmem, hid, hmatch⟩
  · rintro ⟨c, hmem, hid, hmatch⟩
    exact ⟨c, ⟨hmem, hmatch⟩, hid⟩

/-! ## C5 — partially populated records -/

/-- A shop-search record missing `name` (everything else may be present). -/
def noNameShop : ShopSearchShop := { slug := some "x" }

/-- C5 counterexample: the shop-search normalizer is NOT total — a record
missing the list-valued `name` field makes `shop.name[0]` throw a
`TypeError`, so "both search normalizers succeed (never throw)" fails. -/
theorem c5_partial_record_counterexample :
    parseShopSearchResponse { shops := some [noNameShop] } {} = .error .typeError := by decide

/-- C5 as amended: the autocomplete normalizer is total (its Lean embedding
needs no error channel), and the shop-search normalizer succeeds on every
record whose `name` field is present; on the records either normalizer does
emit, a missing nested geocode yields null coordinates (never 0/0) and
missing `budget_lunch_min`/`budget_lunch_max` yield a lunch range with both
bounds absent (not zero). -/
theorem c5_partial_record_amended :
    (∀ (shop : ShopSearchShop) (params : SearchParams) (nameList : List String),
        shop.name = some nameList →
          ∃ r, parseShopSearchShop shop params = .ok r ∧
            (shop.geocode = none → r.location.lat = none ∧ r.location.lng = none) ∧
            (shop.budget_lunch_min = none → shop.budget_lunch_max = none →
              r.lunch_price_range.min = none ∧ r.lunch_price_range.max = none)) ∧
    (∀ (shop : AutocompleteShop) (params : SearchParams),
        (shop.geocode = none →
          (parseAutocompleteShop shop params).location.lat = none ∧
          (parseAutocompleteShop shop params).location.lng = none) ∧
        (shop.budget_lunch_min = none → shop.budget_lunch_max = none →
          (parseAutocompleteShop shop params).lunch_price_range.min = none ∧
          (parseAutocompleteShop shop params).lunch_price_range.max = none)) := by
  constructor
  · intro shop params nameList hn
    refine ⟨_, by rw [parseShopSearchShop, hn], fun hg => ?_, fun h1 _ => ?_⟩
    · simp [hg]
    · simp [h1]
  · intro shop params
    exact ⟨fun hg => by simp [parseAutocompleteShop, hg],
           fun h1 h2 => by simp [parseAutocompleteShop, h1, h2]⟩

/-! ## Key-level lemmas about the query-parameter segments -/

/-- Membership in a conditional list with an empty alternative. -/
@[simp] theorem mem_ite_nil {c : Prop} [Decidable c] (x : α) (l : List α) :
    (x ∈ if c then l else []) ↔ c ∧ x ∈ l := by
  split <;> simp [*]

/-- The keys contributed by an optional numeric parameter. -/
@[simp] theorem optNatParam_keys (k : String) (v : Option Nat) :
    (optNatParam k v).map Prod.fst = if natTruthy v then [k] else [] := by
  cases v with
  | none => rfl
  | some n => by_cases h : n = 0 <;> simp [optNatParam, natTruthy, h]

/-- The keys contributed by an optional string parameter. -/
@[simp] theorem optStrParam_keys (k : String) (v : Option String) :
    (optStrParam k v).map Prod.fst = if strTruthy v then [k] else [] := by
  cases v with
  | none => rfl
  | some s => by_cases h : s = "" <;> simp [optStrParam, strTruthy, h]

/-- The keys contributed by the coupled time / availability-mode pair. -/
@[simp] theorem timeParamPair_keys (v : Option String) :
    (timeParamPair v).map Prod.fst
      = if strTruthy v then ["time", "availability_mode"] else [] := by
  cases v with
  | none => rfl
  | some s => by_cases h : s = "" <;> simp [timeParamPair, strTruthy, h]

/-- The keys contributed by the location parameter pair. -/
@[simp] theorem locationParam_keys (g : Option GeoPoint) :
    (locationParam g).map Prod.fst
      = if g.isSome then ["geo_latitude", "geo_longitude"] else [] := by
  cases g <;> simp [locationParam]

/-- The cuisines segment is one `cuisines[]` entry per resolved id, in order. -/
theorem cuisinesParam_eq (v : Option (List String)) :
    cuisinesParam v = (v.getD []).map fun c => ("cuisines[]", c) := by
  cases v with
  | none => rfl
  | some cs => cases cs <;> simp [cuisinesParam]

/-- The keys contributed by the cuisines segment. -/
@[simp] theorem cuisinesParam_keys (v : Option (List String)) :
    (cuisinesParam v).map Prod.fst = List.replicate (v.getD []).length "cuisines[]" := by
  rw [cuisinesParam_eq]
  induction (v.getD []) with
  | nil => rfl
  | cons c cs ih => simp [ih, List.replicate_succ]

/-- `natTruthy` values are present. -/
theorem natTruthy_isSome {v : Option Nat} (h : natTruthy v = true) : v.isSome = true := by
  cases v <;> simp_all [natTruthy]

/-- `strTruthy` values are present. -/
theorem strTruthy_isSome {v : Option String} (h : strTruthy v = true) : v.isSome = true := by
  cases v <;> simp_all [strTruthy]

/-- Filtering an optional numeric segment by a different key yields nothing. -/
theorem optNatParam_filter (k key : String) (v : Option Nat) (h : (k == key) = false) :
    (optNatParam k v).filter (fun kv => kv.1 == key) = [] := by
  cases v with
  | none => rfl
  | some n => by_cases hn : n = 0 <;> simp [optNatParam, hn, h]

/-- Filtering an optional string segment by a different key yields nothing. -/
theorem optStrParam_filter (k key : String) (v : Option String) (h : (k == key) = false) :
    (optStrParam k v).filter (fun kv => kv.1 == key) = [] := by
  cases v with
  | none => rfl
  | some s => by_cases hs : s = "" <;> simp [optStrParam, hs, h]

/-- Filtering the time segment by an unrelated key yields nothing. -/
theorem timeParamPair_filter (key : String) (v : Option String)
    (h1 : ("time" == key) = false) (h2 : ("availability_mode" == key) = false) :
    (timeParamPair v).filter (fun kv => kv.1 == key) = [] := by
  cases v with
  | none => rfl
  | some s => by_cases hs : s = "" <;> simp [timeParamPair, hs, h1, h2]

/-- Filtering the location segment by an unrelated key yields nothing. -/
theorem locationParam_filter (key : String) (g : Option GeoPoint)
    (h1 : ("geo_latitude" == key) = false) (h2 : ("geo_longitude" == key) = false) :
    (locationParam g).filter (fun kv => kv.1 == key) = [] := by
  cases g <;> simp [locationParam, h1, h2]

/-- A conditional segment is a sublist of its unconditional form. -/
theorem ite_keys_sublist {c : Prop} [Decidable c] (l : List α) :
    List.Sublist (if c then l else []) l := by
  split
  · exact List.Sublist.refl _
  · exact List.nil_sublist _

/-! ## C6 — filtered-search query translation -/

/-- A search request whose `budget_min` is present but zero. -/
def zeroBudgetParams : SearchParams := { budget_min := some 0 }

/-- C6 counterexample: `budget_min` is present (`some 0`) in the request, yet
no `budget_dinner_avg_min` parameter appears in the built query — the JS
truthiness guard `if (params.budget_min)` drops a present zero, refuting
"every present optional field is mapped to its upstream parameter name". -/
theorem c6_shop_search_counterexample :
    zeroBudgetParams.budget_min.isSome = true ∧
    ((buildShopSearchParams zeroBudgetParams 0).map Prod.fst).contains
        "budget_dinner_avg_min" = false := by
  refine ⟨by decide, by decide⟩

/-- C6 as amended: the fixed service parameters (service mode, venue type,
page size, randomization token) are always present; an optional field is
mapped to its upstream parameter name exactly when it is present AND truthy
(a present zero number or empty string is omitted like an absent field, never
zero-filled); `time` appears iff `availability_mode=same_meal_time` appears;
and cuisine filters are a repeated `cuisines[]` parameter, one entry per
canonical id, in the order of the resolved list. -/
theorem c6_shop_search_amended :
    ∀ (params : SearchParams) (rand : Nat),
      (("service_mode", "dining") ∈ buildShopSearchParams params rand ∧
       ("venue_type", "all") ∈ buildShopSearchParams params rand ∧
       ("per_page", "50") ∈ buildShopSearchParams params rand ∧
       ("randomize_geo", toString (rand % 10000)) ∈ buildShopSearchParams params rand) ∧
      (("num_people" ∈ (buildShopSearchParams params rand).map Prod.fst ↔
          natTruthy params.num_people = true) ∧
       ("budget_dinner_avg_min" ∈ (buildShopSearchParams params rand).map Prod.fst ↔
          natTruthy params.budget_min = true) ∧
       ("budget_dinner_avg_max" ∈ (buildShopSearchParams params rand).map Prod.fst ↔
          natTruthy params.budget_max = true) ∧
       ("date_min" ∈ (buildShopSearchParams params rand).map Prod.fst ↔
          strTruthy params.date_min = true) ∧
       ("date_max" ∈ (buildShopSearchParams params rand).map Prod.fst ↔
          strTruthy params.date_max = true) ∧
       ("geo_distance" ∈ (buildShopSearchParams params rand).map Prod.fst ↔
          strTruthy params.geo_distance = true) ∧
       ("sort_by" ∈ (buildShopSearchParams params rand).map Prod.fst ↔
          strTruthy params.sort_by = true) ∧
       ("sort_order" ∈ (buildShopSearchParams params rand).map Prod.fst ↔
          strTruthy params.sort_order = true) ∧
       ("geo_latitude" ∈ (buildShopSearchParams params rand).map Prod.fst ↔
          params.location.isSome = true) ∧
       ("geo_longitude" ∈ (buildShopSearchParams params rand).map Prod.fst ↔
          params.location.isSome = true)) ∧
      ((∀ n, params.num_people = some n → n ≠ 0 →
          ("num_people", toString n) ∈ buildShopSearchParams params rand) ∧
       (∀ n, params.budget_min = some n → n ≠ 0 →
          ("budget_dinner_avg_min", toString n) ∈ buildShopSearchParams params rand)) ∧
      (("time" ∈ (buildShopSearchParams params rand).map Prod.fst ↔
          strTruthy params.time = true) ∧
       ("availability_mode" ∈ (buildShopSearchParams params rand).map Prod.fst ↔
          "time" ∈ (buildShopSearchParams params rand).map Prod.fst) ∧
       (∀ t, params.time = some t → t ≠ "" →
          ("time", t) ∈ buildShopSearchParams params rand ∧
          ("availability_mode", "same_meal_time") ∈ buildShopSearchParams params rand)) ∧
      ((buildShopSearchParams params rand).filter (fun kv => kv.1 == "cuisines[]")
        = (params.cuisines.getD []).map fun c => ("cuisines[]", c)) := by
  intro params rand
  refine ⟨⟨?_, ?_, ?_, ?_⟩, ⟨?_, ?_, ?_, ?_, ?_, ?_, ?_, ?_, ?_, ?_⟩, ⟨?_, ?_⟩,
    ⟨?_, ?_, ?_⟩, ?_⟩ <;>
    simp [buildShopSearchParams, shopSearchFixedParams, List.mem_append]
  · intro n hn hz
    simp [buildShopSearchParams, shopSearchFixedParams, List.mem_append, optNatParam, hn, hz]
  · intro n hn hz
    simp [buildShopSearchParams, shopSearchFixedParams, List.mem_append, optNatParam, hn, hz]
  · intro t ht hz
    simp [buildShopSearchParams, shopSearchFixedParams, List.mem_append, timeParamPair, ht, hz]
  · simp [buildShopSearchParams, shopSearchFixedParams, List.filter_append,
      cuisinesParam_eq, optNatParam_filter, optStrParam_filter, timeParamPair_filter,
      locationParam_filter, List.filter_map, Function.comp]
    have h : List.filter ((fun kv : String × String => kv.1 == "cuisines[]") ∘
        fun c => ("cuisines[]", c)) (params.cuisines.getD []) = params.cuisines.getD [] :=
      List.filter_eq_self.mpr (fun a _ => by rfl)
    rw [h]

/-! ## C7 — reservation link builder -/

/-- The full declared key order of the reservation URL's parameters: the four
fixed keys, then people, dates, time (with its coupled same-meal-time flag),
budget, geo coordinate, geo distance, sort key, sort order. -/
def reservationKeyOrder : List String :=
  ["availability_days_limit", "availability_format", "service_mode", "venue_type",
   "num_people", "date_min", "date_max", "time", "availability_mode",
   "budget_dinner_avg_min", "budget_dinner_avg_max", "geo_latitude", "geo_longitude",
   "geo_distance", "sort_by", "sort_order"]

/-- C7: the reservation link builder is pure (two calls on the same inputs are
byte-identical — in this embedding it is a function, so the first conjunct is
definitional); the four fixed parameters are always present; every optional
key appears only when its field is present in the input; the emitted keys
follow the fixed declared order (they form a sublist of
`reservationKeyOrder`, which also caps each key at one occurrence); `time`
appears iff the coupled `availability_mode=same_meal_time` flag appears; and
no `randomize_geo` token ever appears. -/
theorem c7_reservation_builder :
    ∀ (shopId : String) (params : SearchParams) (locale : String),
      buildReservationUrl shopId params locale = buildReservationUrl shopId params locale ∧
      (("availability_days_limit", "7") ∈ buildReservationParams params ∧
       ("availability_format", "date") ∈ buildReservationParams params ∧
       ("service_mode", "dining") ∈ buildReservationParams params ∧
       ("venue_type", "all") ∈ buildReservationParams params) ∧
      (("num_people" ∈ (buildReservationParams params).map Prod.fst →
          params.num_people.isSome = true) ∧
       ("date_min" ∈ (buildReservationParams params).map Prod.fst →
          params.date_min.isSome = true) ∧
       ("date_max" ∈ (buildReservationParams params).map Prod.fst →
          params.date_max.isSome = true) ∧
       ("time" ∈ (buildReservationParams params).map Prod.fst →
          params.time.isSome = true) ∧
       ("availability_mode" ∈ (buildReservationParams params).map Prod.fst →
          params.time.isSome = true) ∧
       ("budget_dinner_avg_min" ∈ (buildReservationParams params).map Prod.fst →
          params.budget_min.isSome = true) ∧
       ("budget_dinner_avg_max" ∈ (buildReservationParams params).map Prod.fst →
          params.budget_max.isSome = true) ∧
       ("geo_latitude" ∈ (buildReservationParams params).map Prod.fst →
          params.location.isSome = true) ∧
       ("geo_longitude" ∈ (buildReservationParams params).map Prod.fst →
          params.location.isSome = true) ∧
       ("geo_distance" ∈ (buildReservationParams params).map Prod.fst →
          params.geo_distance.isSome = true) ∧
       ("sort_by" ∈ (buildReservationParams params).map Prod.fst →
          params.sort_by.isSome = true) ∧
       ("sort_order" ∈ (buildReservationParams params).map Prod.fst →
          params.sort_order.isSome = true)) ∧
      ("time" ∈ (buildReservationParams params).map Prod.fst ↔
        "availability_mode" ∈ (buildReservationParams params).map Prod.fst) ∧
      List.Sublist ((buildReservationParams params).map Prod.fst) reservationKeyOrder ∧
      "randomize_geo" ∉ (buildReservationParams params).map Prod.fst ∧
      buildReservationUrl shopId params locale
        = "https://www.tablecheck.com/" ++ locale ++ "/" ++ shopId ++ "?"
            ++ serializeParams (buildReservationParams params) := by
  intro shopId params locale
  have hsub : List.Sublist ((buildReservationParams params).map Prod.fst) reservationKeyOrder := by
    show List.Sublist _
      ((((((((((["availability_days_limit", "availability_format", "service_mode", "venue_type"]
        ++ ["num_people"]) ++ ["date_min"]) ++ ["date_max"]) ++ ["time", "availability_mode"])
        ++ ["budget_dinner_avg_min"]) ++ ["budget_dinner_avg_max"])
        ++ ["geo_latitude", "geo_longitude"]) ++ ["geo_distance"]) ++ ["sort_by"]) ++ ["sort_order"])
    simp only [buildReservationParams, reservationFixedParams, List.map_append,
      optNatParam_keys, optStrParam_keys, timeParamPair_keys, locationParam_keys]
    exact ((((((((((List.Sublist.refl _).append (ite_keys_sublist _)).append
      (ite_keys_sublist _)).append (ite_keys_sublist _)).append (ite_keys_sublist _)).append
      (ite_keys_sublist _)).append (ite_keys_sublist _)).append (ite_keys_sublist _)).append
      (ite_keys_sublist _)).append (ite_keys_sublist _)).append (ite_keys_sublist _)
  refine ⟨rfl, ⟨?_, ?_, ?_, ?_⟩,
    ⟨?_, ?_, ?_, ?_, ?_, ?_, ?_, ?_, ?_, ?_, ?_, ?_⟩, ?_, hsub,
    fun hmem => absurd (hsub.subset hmem) (by decide), rfl⟩ <;>
    simp [buildReservationParams, reservationFixedParams, List.mem_append]
  · exact fun h => natTruthy_isSome h
  · exact fun h => strTruthy_isSome h
  · exact fun h => strTruthy_isSome h
  · exact fun h => strTruthy_isSome h
  · exact fun h => strTruthy_isSome h
  · exact fun h => natTruthy_isSome h
  · exact fun h => natTruthy_isSome h
  · exact fun h => strTruthy_isSome h
  · exact fun h => strTruthy_isSome h
  · exact fun h => strTruthy_isSome h

/-! ## C8 — availability normalizer -/

/-- The spec's availability fixture:
`{availability_calendar:{data:{"2025-07-15":{"18:00":true,"19:00":false}}}}`. -/
def availabilityFixture : AvailabilityResponse :=
  { availability_calendar := some
      { data := some [("2025-07-15", [("18:00", true), ("19:00", false)])] } }

/-- C8: the availability normalizer annotates every flattened slot with the
request's party size; the fixture with party size 2 yields exactly the two
expected slots in order; and a response missing `availability_calendar`, or
missing its `data`, yields the empty list rather than an error. -/
theorem c8_availability_normalizer :
    (∀ (response : AvailabilityResponse) (party_size : Nat) (slot : AvailabilitySlot),
        slot ∈ parseAvailabilityResponse response party_size →
          slot.party_size = party_size) ∧
    parseAvailabilityResponse availabilityFixture 2
      = [⟨"2025-07-15", "18:00", true, 2⟩, ⟨"2025-07-15", "19:00", false, 2⟩] ∧
    (∀ party_size, parseAvailabilityResponse { availability_calendar := none } party_size = []) ∧
    (∀ party_size,
        parseAvailabilityResponse { availability_calendar := some { data := none } } party_size
          = []) := by
  refine ⟨?_, by decide, fun ps => rfl, fun ps => rfl⟩
  intro response party_size slot hmem
  obtain ⟨calOpt⟩ := response
  cases calOpt with
  | none => exact absurd hmem (by simp [parseAvailabilityResponse])
  | some cal =>
    obtain ⟨dataOpt⟩ := cal
    cases dataOpt with
    | none => exact absurd hmem (by simp [parseAvailabilityResponse])
    | some entries =>
      simp only [parseAvailabilityResponse, List.mem_flatMap, List.mem_map] at hmem
      obtain ⟨d, _, t, _, rfl⟩ := hmem
      rfl

/-! ## C9 — combined search -/

/-- C9: when a (truthy) free-text query is present, the orchestrator resolves
cuisine ids from the query, injects them into the filter parameters (both
downstream calls run with `cuisines := resolved ids`), issues the
filtered-search and text-search calls, and returns text-search results first
followed by the filtered-search results, unchanged and undeduplicated: the
first N returned results (N = text-search count) are exactly the text-search
results in order. -/
theorem c9_combined_search
    (fetchC : FetchOutcome CuisinesResponse)
    (fetchA : List (String × String) → FetchOutcome AutocompleteResponse)
    (fetchS : List (String × String) → FetchOutcome ShopSearchResponse)
    (params : SearchParams) (rand : Nat) (q : String)
    (cuisineIds : List String) (textResults paramResults : List RestaurantResult)
    (hq : params.query = some q) (hq' : q ≠ "")
    (hcu : searchCuisinesRun fetchC q (params.locale.getD "en") = .ok cuisineIds)
    (hpar : parameterSearchRun fetchS { params with cuisines := some cuisineIds } rand
      = .ok paramResults)
    (htext : textSearchRun fetchA { params with cuisines := some cuisineIds }
      = .ok textResults) :
    searchRestaurantsRun fetchC fetchA fetchS params rand = .ok (textResults ++ paramResults) ∧
      (textResults ++ paramResults).take textResults.length = textResults := by
  constructor
  · rw [hq] at hpar htext
    simp only [searchRestaurantsRun, hq, if_neg hq', hcu, hpar, htext, Except.bind, Except.map]
  · exact List.take_left textResults paramResults

/-- The witness fixtures for `c9_combined_search`: a one-entry cuisine
catalog, a one-shop autocomplete body and a one-shop filtered-search body. -/
def comboCuisines : CuisinesResponse :=
  { cuisines := some [{ field := "sushi",
                        text_translations := [{ locale := "en", translation := "Sushi" },
                                              { locale := "ja", translation := "Sushi" }] }] }

/-- The autocomplete body of the combined-search witness. -/
def comboAuto : AutocompleteResponse :=
  { shops := some [{ payload := some { shop_slug := some "sushi-place" },
                       text := some "Sushi Place" }] }

/-- The filtered-search body of the combined-search witness. -/
def comboShop : ShopSearchResponse :=
  { shops := some [{ id := some "s1", slug := some "shop-one", name := some ["Shop One"] }] }

/-- The search request of the combined-search witness. -/
def comboParams : SearchParams := { query := some "sushi" }

/-- `comboParams` after cuisine-id injection (the resolved id is "sushi"). -/
def comboInjected : SearchParams := { comboParams with cuisines := some ["sushi"] }

/-- The witness's normalized text-search results. -/
def comboText : List RestaurantResult := parseAutocompleteResponse comboAuto comboInjected

/-- The witness's normalized filtered-search results. -/
def comboParamResults : List RestaurantResult :=
  (parseShopSearchResponse comboShop comboInjected).toOption.getD []

/-- Witness for `c9_combined_search` at the concrete fixtures. -/
theorem c9_combined_search_witness :
    searchRestaurantsRun (.success comboCuisines) (fun _ => .success comboAuto)
        (fun _ => .success comboShop) comboParams 0
      = .ok (comboText ++ comboParamResults) ∧
      (comboText ++ comboParamResults).take comboText.length = comboText :=
  c9_combined_search (.success comboCuisines) (fun _ => .success comboAuto)
    (fun _ => .success comboShop) comboParams 0 "sushi" ["sushi"] comboText comboParamResults
    rfl (by decide) (by decide) (by decide) (by decide)

/-! ## C10 — the lunch range's max bound reads `budget_lunch_min` -/

/-- C10: in the filtered-search normalizer the lunch range's `max` is read
from the upstream `budget_lunch_min` field, so `max` always equals `min`
(both mirror `budget_lunch_min`), and the upstream `budget_lunch_max` value
never influences the output at all — while the dinner range's bounds come
from the distinct `budget_dinner_min` and `budget_dinner_max` fields. -/
theorem c10_lunch_max_reads_min :
    (∀ (shop : ShopSearchShop) (params : SearchParams) (r : RestaurantResult),
        parseShopSearchShop shop params = .ok r →
          r.lunch_price_range.min = shop.budget_lunch_min ∧
          r.lunch_price_range.max = shop.budget_lunch_min ∧
          r.lunch_price_range.max = r.lunch_price_range.min ∧
          r.dinner_price_range.min = shop.budget_dinner_min ∧
          r.dinner_price_range.max = shop.budget_dinner_max) ∧
    (∀ (shop : ShopSearchShop) (params : SearchParams) (v : Option Nat),
        parseShopSearchShop { shop with budget_lunch_max := v } params
          = parseShopSearchShop shop params) := by
  constructor
  · intro shop params r h
    cases hn : shop.name with
    | none => rw [parseShopSearchShop, hn] at h; exact absurd h (by simp)
    | some l =>
      rw [parseShopSearchShop, hn] at h
      simp only [Except.ok.injEq] at h
      subst h
      exact ⟨rfl, rfl, rfl, rfl, rfl⟩
  · intro shop params v
    obtain ⟨i, sl, nm, cu, ge, ba, cur, blmin, blmax, bdmin, bdmax, av, si⟩ := shop
    cases nm <;> rfl

end Tablecheck
